import Mathlib

/-!
Shallow embedding of the GeoIQ file-sharing web application (`src/app.py`).

The application is a Flask app with five routes:
  * `GET /up`              — health check, constant 200;
  * `GET /upload`          — static upload form (presentation only, not modelled);
  * `POST /upload_success` — validates the multipart `file` field, uploads the
    bytes to S3 under the submitted filename, and returns an HTML success page
    embedding the object URL `https://{bucket}.s3.{region}.amazonaws.com/{key}`;
  * `GET /file/<name>`     — downloads the object `name` from S3 and streams it
    back as an attachment;
  * `GET /db_test`         — opens a PostgreSQL connection, creates the `test`
    table if absent, inserts one row `'GeoIQ'`, commits, selects all rows and
    returns them as JSON, closing cursor and connection on the success path.

The S3 client is modelled as an association-list store keyed by
(bucket, key) together with a `fault` field: when `fault = some msg`, every
S3 call raises an exception with message `msg` (modelling arbitrary backend
exceptions); when `fault = none`, `download_fileobj` of a missing key still
raises the backend's distinct not-found error, as boto3 does.  The database
is modelled analogously with a connection-time fault and an operation-time
fault; an extra `ConnOutcome` component of the `db_test` result records
whether the connection opened by the request was closed before returning,
mirroring the straight-line `conn.close()` in the source.
-/

namespace GeoIQ

/-- Byte strings are modelled as lists of naturals (one per byte). -/
abbrev Bytes := List Nat

/-- One entry of `request.files`: the client-supplied filename and content. -/
structure FilePart where
  filename : String
  content  : Bytes
deriving DecidableEq, Repr

/-- A multipart POST request: the `request.files` mapping as an assoc list. -/
structure UploadRequest where
  files : List (String × FilePart)
deriving DecidableEq, Repr

/-- Lookup of a field in `request.files` (`"file" in request.files` /
`request.files["file"]` in the source). -/
def filesLookup : List (String × FilePart) → String → Option FilePart
  | [], _ => none
  | (k, v) :: rest, name => if k = name then some v else filesLookup rest name

/-- The S3 object store: assoc list from (bucket, key) to stored bytes.
The most recent entry for a key shadows older ones (silent overwrite). -/
def storeLookup : List ((String × String) × Bytes) → String × String → Option Bytes
  | [], _ => none
  | (k, v) :: rest, bk => if k = bk then some v else storeLookup rest bk

/-- The boto3 S3 client: its remote store, and a fault-injection field:
`fault = some msg` means every S3 call raises an exception with text `msg`. -/
structure S3Client where
  store : List ((String × String) × Bytes)
  fault : Option String
deriving DecidableEq, Repr

/-- The error text boto3 raises when downloading a missing key
(the backend's distinct not-found condition). -/
def notFoundMsg (key : String) : String :=
  "An error occurred (404) when calling the HeadObject operation: Not Found: " ++ key

/-- `s3.upload_fileobj(file, bucket, key)`: raises on an injected fault or a
missing bucket name, otherwise stores the bytes under (bucket, key),
silently shadowing any previous object with that key. -/
def s3_upload_fileobj (c : S3Client) (bucket : Option String) (key : String)
    (content : Bytes) : Except String S3Client :=
  match c.fault with
  | some e => Except.error e
  | none =>
      match bucket with
      | none => Except.error "Invalid bucket name: None"
      | some b => Except.ok { c with store := ((b, key), content) :: c.store }

/-- `s3.download_fileobj(bucket, key, file)`: raises on an injected fault or a
missing bucket name; for a missing key it raises the backend's distinct
not-found error; otherwise returns the stored bytes. -/
def s3_download_fileobj (c : S3Client) (bucket : Option String) (key : String) :
    Except String Bytes :=
  match c.fault with
  | some e => Except.error e
  | none =>
      match bucket with
      | none => Except.error "Invalid bucket name: None"
      | some b =>
          match storeLookup c.store (b, key) with
          | some content => Except.ok content
          | none => Except.error (notFoundMsg key)

/-- The body of an HTTP response: an HTML/text page, a JSON error object
`{"error": msg}`, the `db_test` JSON result set, or a file attachment. -/
inductive Body where
  | html (page : String)
  | jsonError (msg : String)
  | jsonResults (rows : List (Nat × String))
  | fileAttachment (content : Bytes) (downloadName : String)
deriving DecidableEq, Repr

/-- An HTTP response: status code and body. -/
structure Response where
  status : Nat
  body   : Body
deriving DecidableEq, Repr

/-- Startup environment configuration read at module load:
`bucket = os.getenv("S3_BUCKET")` and
`region = os.getenv("AWS_DEFAULT_REGION", "us-east-1")`. -/
structure Config where
  bucket : Option String
  region : String
deriving DecidableEq, Repr

/-- Lookup of an environment variable. -/
def envLookup : List (String × String) → String → Option String
  | [], _ => none
  | (k, v) :: rest, name => if k = name then some v else envLookup rest name

/-- The module-level startup reads of `S3_BUCKET` and `AWS_DEFAULT_REGION`
(the latter defaulting to `"us-east-1"`). -/
def Config.ofEnv (env : List (String × String)) : Config :=
  { bucket := envLookup env "S3_BUCKET"
    region := (envLookup env "AWS_DEFAULT_REGION").getD "us-east-1" }

/-- Python's string rendering of an optional value inside an f-string:
`None` prints as `"None"`. -/
def pystr : Option String → String
  | some s => s
  | none => "None"

/-- `url = f"https://{bucket}.s3.{region}.amazonaws.com/{file.filename}"`. -/
def object_url (bucket : Option String) (region key : String) : String :=
  "https://" ++ pystr bucket ++ ".s3." ++ region ++ ".amazonaws.com/" ++ key

/-- `GET /up`: constant success response. -/
def health_check : Response :=
  { status := 200, body := Body.html "200 OK" }

/-- The rendered success page up to the first `{url}` interpolation point
(`success_html` in the source, braces written as `\x7b`/`\x7d`). -/
def success_html_head : String :=
  "\n        <!DOCTYPE html>\n        <html lang=\"en\">\n        <head>\n          <meta charset=\"UTF-8\">\n          <meta name=\"viewport\" content=\"width=device-width, initial-scale=1.0\">\n          <title>Upload Success | FileShare</title>\n          <link rel=\"stylesheet\" href=\"https://cdnjs.cloudflare.com/ajax/libs/font-awesome/6.4.0/css/all.min.css\">\n          <style>\n            body \x7b font-family: Arial, sans-serif; background: #f4f7fa; display: flex; justify-content: center; align-items: center; height: 100vh; margin: 0; \x7d\n            .container \x7b text-align: center; background: #fff; padding: 40px; border-radius: 12px; box-shadow: 0 4px 15px rgba(0,0,0,0.1); width: 500px; \x7d\n            .success-icon \x7b font-size: 60px; color: #28a745; margin-bottom: 20px; \x7d\n            h2 \x7b color: #333; margin-bottom: 10px; \x7d\n            p \x7b color: #666; margin-bottom: 20px; \x7d\n            .url-box \x7b display: flex; justify-content: space-between; align-items: center; border: 1px solid #ddd; padding: 10px; border-radius: 8px; margin-bottom: 20px; \x7d\n            .url-text \x7b flex: 1; word-break: break-all; text-align: left; \x7d\n            .copy-btn \x7b background: #007bff; color: #fff; border: none; padding: 8px 15px; border-radius: 6px; cursor: pointer; \x7d\n            .copy-btn:hover \x7b background: #0056b3; \x7d\n            .action-buttons \x7b display: flex; justify-content: center; gap: 10px; \x7d\n            .btn \x7b padding: 10px 20px; border-radius: 6px; text-decoration: none; font-size: 14px; \x7d\n            .btn-primary \x7b background: #007bff; color: #fff; \x7d\n            .btn-secondary \x7b background: #6c757d; color: #fff; \x7d\n            .btn-primary:hover \x7b background: #0056b3; \x7d\n            .btn-secondary:hover \x7b background: #565e64; \x7d\n          </style>\n        </head>\n        <body>\n          <div class=\"container\">\n            <div class=\"success-icon\"><i class=\"fas fa-check-circle\"></i></div>\n            <h2>File Uploaded Successfully!</h2>\n            <p>Your file has been uploaded. Copy the URL below to share it:</p>\n            <div class=\"url-box\">\n              <div class=\"url-text\" id=\"url-text\">"

/-- The rendered success page between the two `{url}` interpolation points. -/
def success_html_mid : String :=
  "</div>\n              <button class=\"copy-btn\" id=\"copy-btn\"><i class=\"fas fa-copy\"></i> Copy</button>\n            </div>\n            <div class=\"action-buttons\">\n              <a href=\"/upload\" class=\"btn btn-secondary\"><i class=\"fas fa-arrow-left\"></i> Back to Upload</a>\n              <a href=\""

/-- The rendered success page after the second `{url}` interpolation point. -/
def success_html_tail : String :=
  "\" target=\"_blank\" class=\"btn btn-primary\"><i class=\"fas fa-share-alt\"></i> Open File</a>\n            </div>\n          </div>\n          <script>\n            const copyBtn = document.getElementById(\"copy-btn\");\n            const urlText = document.getElementById(\"url-text\").innerText;\n            copyBtn.addEventListener(\"click\", () => \x7b\n              navigator.clipboard.writeText(urlText).then(() => \x7b\n                copyBtn.innerHTML = \"<i class=\x27fas fa-check\x27></i> Copied!\";\n                setTimeout(() => \x7b\n                  copyBtn.innerHTML = \"<i class=\x27fas fa-copy\x27></i> Copy\";\n                \x7d, 2000);\n              \x7d);\n            \x7d);\n          </script>\n        </body>\n        </html>\n        "

/-- The `success_html` f-string of the upload handler: the static page with the
object URL interpolated at its two occurrences. -/
def success_html (url : String) : String :=
  success_html_head ++ url ++ success_html_mid ++ url ++ success_html_tail

/-- `POST /upload_success` (`upload_file` in the source): rejects a request
with no `file` field (400) or an empty filename (400); otherwise uploads the
bytes to S3 under the filename and returns the success page embedding the
object URL; any exception is caught and returned as a 500 JSON error.
Returns the response together with the resulting S3 client state. -/
def upload_file (cfg : Config) (c : S3Client) (req : UploadRequest) :
    Response × S3Client :=
  match filesLookup req.files "file" with
  | none => ({ status := 400, body := Body.jsonError "No file part in the request" }, c)
  | some file =>
      if file.filename = "" then
        ({ status := 400, body := Body.jsonError "No selected file" }, c)
      else
        match s3_upload_fileobj c cfg.bucket file.filename file.content with
        | Except.error e => ({ status := 500, body := Body.jsonError e }, c)
        | Except.ok c' =>
            let url := object_url cfg.bucket cfg.region file.filename
            ({ status := 200, body := Body.html (success_html url) }, c')

/-- `GET /file/<name>` (`download_file` in the source): fetches the object
from S3 and returns it as an attachment under the requested name; any
exception is caught and returned as a 500 JSON error. -/
def download_file (cfg : Config) (c : S3Client) (name : String) : Response :=
  match s3_download_fileobj c cfg.bucket name with
  | Except.ok content => { status := 200, body := Body.fileAttachment content name }
  | Except.error e => { status := 500, body := Body.jsonError e }

/-- The PostgreSQL database reachable from `db_test`: a connection-time fault
(`psycopg2.connect` raising), an operation-time fault (any statement between
open and close raising), whether the `test` table has been created, its rows
(serial id, `data` column), and the next serial id. -/
structure Database where
  connectFault : Option String
  opFault      : Option String
  tableCreated : Bool
  rows         : List (Nat × String)
  nextId       : Nat
deriving DecidableEq, Repr

/-- Fate of the connection opened by one `db_test` request: never established,
established but left open when an exception escaped to the handler boundary,
or closed by the straight-line `conn.close()`. -/
inductive ConnOutcome where
  | notOpened
  | openLeaked
  | closed
deriving DecidableEq, Repr

/-- Result of one `db_test` invocation: the HTTP response, the database state
afterwards, and what happened to the connection opened by the request. -/
structure DbTestResult where
  response : Response
  db       : Database
  conn     : ConnOutcome
deriving DecidableEq, Repr

/-- `GET /db_test` (`db_test` in the source): connects, creates the `test`
table if absent, inserts one row `'GeoIQ'`, commits, selects all rows,
closes cursor and connection, and returns the rows as JSON; any exception is
caught and returned as a 500 JSON error.  A connection failure leaves no
connection behind; a failure between open and close leaves the connection
open (there is no cleanup on the error path in the source). -/
def db_test (db : Database) : DbTestResult :=
  match db.connectFault with
  | some e =>
      { response := { status := 500, body := Body.jsonError e }
        db := db, conn := ConnOutcome.notOpened }
  | none =>
      match db.opFault with
      | some e =>
          { response := { status := 500, body := Body.jsonError e }
            db := db, conn := ConnOutcome.openLeaked }
      | none =>
          let rows' := db.rows ++ [(db.nextId, "GeoIQ")]
          { response := { status := 200, body := Body.jsonResults rows' }
            db := { db with tableCreated := true, rows := rows', nextId := db.nextId + 1 }
            conn := ConnOutcome.closed }

/-! ## Theorems -/

/-- C1: Round-trip identity — whenever the upload handler accepts a request
carrying the file part `fp` (that is, uploading the file succeeds with
status 200), downloading `fp.filename` against the resulting S3 client state
returns status 200 with exactly the uploaded bytes. -/
theorem upload_download_roundtrip
    (cfg : Config) (c : S3Client) (req : UploadRequest) (fp : FilePart)
    (hfp : filesLookup req.files "file" = some fp)
    (h200 : (upload_file cfg c req).1.status = 200) :
    download_file cfg (upload_file cfg c req).2 fp.filename =
      { status := 200, body := Body.fileAttachment fp.content fp.filename } := by
  simp only [upload_file, hfp] at h200 ⊢
  by_cases hname : fp.filename = ""
  · simp [hname] at h200
  · simp only [if_neg hname] at h200 ⊢
    cases hfault : c.fault with
    | some e => simp [s3_upload_fileobj, hfault] at h200
    | none =>
        cases hb : cfg.bucket with
        | none => simp [s3_upload_fileobj, hfault, hb] at h200
        | some b =>
            simp only [s3_upload_fileobj, hfault, hb] at h200 ⊢
            simp [download_file, s3_download_fileobj, hfault, hb, storeLookup]

/-- Witness for C1 at a concrete input: uploading `report.pdf` with bytes
`[82, 1, 255]` into an empty store and downloading it returns those bytes. -/
theorem upload_download_roundtrip_witness :
    download_file { bucket := some "mybucket", region := "us-east-1" }
        (upload_file { bucket := some "mybucket", region := "us-east-1" }
          { store := [], fault := none }
          { files := [("file", { filename := "report.pdf", content := [82, 1, 255] })] }).2
        "report.pdf" =
      { status := 200, body := Body.fileAttachment [82, 1, 255] "report.pdf" } :=
  upload_download_roundtrip
    { bucket := some "mybucket", region := "us-east-1" }
    { store := [], fault := none }
    { files := [("file", { filename := "report.pdf", content := [82, 1, 255] })] }
    { filename := "report.pdf", content := [82, 1, 255] }
    (by simp [filesLookup]) (by rfl)

/-- C2: On a successful upload of file part `fp` under startup environment
`env` with `S3_BUCKET = b`, the success response embeds exactly the URL
`https://{b}.s3.{region}.amazonaws.com/{fp.filename}` — a literal
concatenation of bucket, region and filename — where the region is the
startup `AWS_DEFAULT_REGION` defaulting to `us-east-1`. -/
theorem upload_success_url
    (env : List (String × String)) (c : S3Client) (req : UploadRequest)
    (fp : FilePart) (b : String)
    (hfp : filesLookup req.files "file" = some fp)
    (hb : envLookup env "S3_BUCKET" = some b)
    (h200 : (upload_file (Config.ofEnv env) c req).1.status = 200) :
    (upload_file (Config.ofEnv env) c req).1.body =
        Body.html (success_html
          ("https://" ++ b ++ ".s3." ++
            (envLookup env "AWS_DEFAULT_REGION").getD "us-east-1" ++
            ".amazonaws.com/" ++ fp.filename)) ∧
      (envLookup env "AWS_DEFAULT_REGION" = none →
        (Config.ofEnv env).region = "us-east-1") := by
  refine ⟨?_, fun h => by simp [Config.ofEnv, h]⟩
  simp only [upload_file, hfp] at h200 ⊢
  by_cases hname : fp.filename = ""
  · simp [hname] at h200
  · simp only [if_neg hname] at h200 ⊢
    cases hfault : c.fault with
    | some e => simp [s3_upload_fileobj, hfault] at h200
    | none =>
        have hb' : (Config.ofEnv env).bucket = some b := by simp [Config.ofEnv, hb]
        simp only [s3_upload_fileobj, hfault, hb'] at h200 ⊢
        simp [object_url, pystr, hb', Config.ofEnv]

/-- Witness for C2 at a concrete input: with `S3_BUCKET = mybucket` and no
`AWS_DEFAULT_REGION`, the success page embeds
`https://mybucket.s3.us-east-1.amazonaws.com/report.pdf`. -/
theorem upload_success_url_witness :
    (upload_file (Config.ofEnv [("S3_BUCKET", "mybucket")])
          { store := [], fault := none }
          { files := [("file", { filename := "report.pdf", content := [7] })] }).1.body =
        Body.html (success_html
          ("https://" ++ "mybucket" ++ ".s3." ++
            (envLookup [("S3_BUCKET", "mybucket")] "AWS_DEFAULT_REGION").getD "us-east-1" ++
            ".amazonaws.com/" ++
            (FilePart.mk "report.pdf" [7]).filename)) ∧
      (envLookup [("S3_BUCKET", "mybucket")] "AWS_DEFAULT_REGION" = none →
        (Config.ofEnv [("S3_BUCKET", "mybucket")]).region = "us-east-1") :=
  upload_success_url [("S3_BUCKET", "mybucket")]
    { store := [], fault := none }
    { files := [("file", { filename := "report.pdf", content := [7] })] }
    { filename := "report.pdf", content := [7] } "mybucket"
    (by simp [filesLookup]) (by simp [envLookup]) (by rfl)

/-- C3: A POST whose multipart form has no `file` field is answered with
HTTP 400 and the JSON body `{"error": "No file part in the request"}`, and
the S3 client state is returned unchanged (no storage call is made). -/
theorem upload_missing_file_400
    (cfg : Config) (c : S3Client) (req : UploadRequest)
    (h : filesLookup req.files "file" = none) :
    upload_file cfg c req =
      ({ status := 400, body := Body.jsonError "No file part in the request" }, c) := by
  simp [upload_file, h]

/-- Witness for C3 at a concrete input: a request with an empty form. -/
theorem upload_missing_file_400_witness :
    upload_file { bucket := some "mybucket", region := "us-east-1" }
        { store := [], fault := none } { files := [] } =
      ({ status := 400, body := Body.jsonError "No file part in the request" },
        { store := [], fault := none }) :=
  upload_missing_file_400 { bucket := some "mybucket", region := "us-east-1" }
    { store := [], fault := none } { files := [] } (by rfl)

/-- C4: A POST whose `file` field is present but carries the empty filename
`""` is answered with HTTP 400 and the JSON body
`{"error": "No selected file"}`, leaving the S3 client state unchanged. -/
theorem upload_empty_filename_400
    (cfg : Config) (c : S3Client) (req : UploadRequest) (fp : FilePart)
    (hfp : filesLookup req.files "file" = some fp)
    (hname : fp.filename = "") :
    upload_file cfg c req =
      ({ status := 400, body := Body.jsonError "No selected file" }, c) := by
  simp [upload_file, hfp, hname]

/-- Witness for C4 at a concrete input: a `file` field with filename `""`. -/
theorem upload_empty_filename_400_witness :
    upload_file { bucket := some "mybucket", region := "us-east-1" }
        { store := [], fault := none }
        { files := [("file", { filename := "", content := [1, 2] })] } =
      ({ status := 400, body := Body.jsonError "No selected file" },
        { store := [], fault := none }) :=
  upload_empty_filename_400 { bucket := some "mybucket", region := "us-east-1" }
    { store := [], fault := none }
    { files := [("file", { filename := "", content := [1, 2] })] }
    { filename := "", content := [1, 2] }
    (by simp [filesLookup]) (by rfl)

/-- C5: If the backend fetch raises any exception `e`, the download handler
returns HTTP 500 with the JSON body `{"error": e}`; in particular the
backend's distinct not-found condition for a missing key (no injected fault,
key absent from the store) takes the very same generic 500 error path and is
not distinguished from other backend failures. -/
theorem download_backend_error_500 (cfg : Config) (c : S3Client) (name : String) :
    (∀ e, s3_download_fileobj c cfg.bucket name = Except.error e →
        download_file cfg c name = { status := 500, body := Body.jsonError e }) ∧
      (c.fault = none → ∀ b, cfg.bucket = some b →
        storeLookup c.store (b, name) = none →
        download_file cfg c name =
          { status := 500, body := Body.jsonError (notFoundMsg name) }) := by
  constructor
  · intro e he
    simp [download_file, he]
  · intro hfault b hb hmiss
    simp [download_file, s3_download_fileobj, hfault, hb, hmiss]

/-- Witness for C5 at a concrete input: requesting `does-not-exist` from an
empty, healthy store returns 500 with the backend's not-found message. -/
theorem download_backend_error_500_witness :
    download_file { bucket := some "mybucket", region := "us-east-1" }
        { store := [], fault := none } "does-not-exist" =
      { status := 500, body := Body.jsonError (notFoundMsg "does-not-exist") } :=
  (download_backend_error_500 { bucket := some "mybucket", region := "us-east-1" }
      { store := [], fault := none } "does-not-exist").2
    rfl "mybucket" rfl rfl

/-- C6: Uniform error taxonomy — in each of the three handlers that reach a
backend, every backend exception is caught at the handler boundary and
converted to HTTP 500 with JSON body `{"error": e}` carrying the raw
exception text `e` (upload after passing validation, download, and `db_test`
both at connect time and between open and close); and the only non-500
failures anywhere are the two upload input-validation checks, which return
400 with one of the two fixed validation messages, while the download and
database handlers never return 400. -/
theorem error_taxonomy :
    (∀ (cfg : Config) (c : S3Client) (req : UploadRequest) (fp : FilePart) (e : String),
        filesLookup req.files "file" = some fp → fp.filename ≠ "" →
        s3_upload_fileobj c cfg.bucket fp.filename fp.content = Except.error e →
        (upload_file cfg c req).1 = { status := 500, body := Body.jsonError e }) ∧
      (∀ (cfg : Config) (c : S3Client) (name e : String),
        s3_download_fileobj c cfg.bucket name = Except.error e →
        download_file cfg c name = { status := 500, body := Body.jsonError e }) ∧
      (∀ (db : Database) (e : String), db.connectFault = some e →
        (db_test db).response = { status := 500, body := Body.jsonError e }) ∧
      (∀ (db : Database) (e : String), db.connectFault = none → db.opFault = some e →
        (db_test db).response = { status := 500, body := Body.jsonError e }) ∧
      (∀ (cfg : Config) (c : S3Client) (req : UploadRequest),
        (upload_file cfg c req).1.status = 400 →
        (upload_file cfg c req).1.body = Body.jsonError "No file part in the request" ∨
          (upload_file cfg c req).1.body = Body.jsonError "No selected file") ∧
      (∀ (cfg : Config) (c : S3Client) (name : String),
        (download_file cfg c name).status ≠ 400) ∧
      (∀ db : Database, (db_test db).response.status ≠ 400) := by
  refine ⟨?_, ?_, ?_, ?_, ?_, ?_, ?_⟩
  · intro cfg c req fp e hfp hname he
    simp [upload_file, hfp, if_neg hname, he]
  · intro cfg c name e he
    simp [download_file, he]
  · intro db e hc
    simp [db_test, hc]
  · intro db e hc ho
    simp [db_test, hc, ho]
  · intro cfg c req h400
    cases hfp : filesLookup req.files "file" with
    | none => simp [upload_file, hfp]
    | some fp =>
        by_cases hname : fp.filename = ""
        · simp [upload_file, hfp, hname]
        · simp only [upload_file, hfp, if_neg hname] at h400 ⊢
          cases hres : s3_upload_fileobj c cfg.bucket fp.filename fp.content with
          | error e => simp [hres] at h400
          | ok c' => simp [hres] at h400
  · intro cfg c name
    cases hres : s3_download_fileobj c cfg.bucket name with
    | error e => simp [download_file, hres]
    | ok content => simp [download_file, hres]
  · intro db
    cases hc : db.connectFault with
    | some e => simp [db_test, hc]
    | none =>
        cases ho : db.opFault with
        | some e => simp [db_test, hc, ho]
        | none => simp [db_test, hc, ho]

/-- Witness for C6 at a concrete input: a connection failure in `db_test`
surfaces as 500 with the raw exception text. -/
theorem error_taxonomy_witness :
    (db_test { connectFault := some "connection refused", opFault := none,
               tableCreated := false, rows := [], nextId := 1 }).response =
      { status := 500, body := Body.jsonError "connection refused" } :=
  error_taxonomy.2.2.1
    { connectFault := some "connection refused", opFault := none,
      tableCreated := false, rows := [], nextId := 1 }
    "connection refused" rfl

/-- C7: When the connection succeeds (and no statement raises), one `db_test`
invocation inserts exactly one row with fixed value `GeoIQ`, commits, and
returns the full table contents as JSON; consequently a second invocation on
the resulting state returns a result set exactly one row longer. -/
theorem db_test_inserts_one_row (db : Database)
    (hc : db.connectFault = none) (ho : db.opFault = none) :
    (db_test db).response =
        { status := 200, body := Body.jsonResults (db.rows ++ [(db.nextId, "GeoIQ")]) } ∧
      (db_test db).db.rows = db.rows ++ [(db.nextId, "GeoIQ")] ∧
      (db_test db).db.rows.length = db.rows.length + 1 ∧
      (∀ r1 r2, (db_test db).response.body = Body.jsonResults r1 →
        (db_test (db_test db).db).response.body = Body.jsonResults r2 →
        r2.length = r1.length + 1) := by
  refine ⟨by simp [db_test, hc, ho], by simp [db_test, hc, ho],
    by simp [db_test, hc, ho], ?_⟩
  intro r1 r2 h1 h2
  simp [db_test, hc, ho] at h1 h2
  rw [← h1, ← h2]
  simp

/-- Witness for C7 at a concrete input: a healthy, empty database. -/
theorem db_test_inserts_one_row_witness :
    (db_test { connectFault := none, opFault := none, tableCreated := false,
               rows := [], nextId := 1 }).response =
        { status := 200, body := Body.jsonResults ([] ++ [(1, "GeoIQ")]) } ∧
      (db_test { connectFault := none, opFault := none, tableCreated := false,
                 rows := [], nextId := 1 }).db.rows = [] ++ [(1, "GeoIQ")] ∧
      (db_test { connectFault := none, opFault := none, tableCreated := false,
                 rows := [], nextId := 1 }).db.rows.length =
        List.length ([] : List (Nat × String)) + 1 ∧
      (∀ r1 r2,
        (db_test { connectFault := none, opFault := none, tableCreated := false,
                   rows := [], nextId := 1 }).response.body = Body.jsonResults r1 →
        (db_test (db_test { connectFault := none, opFault := none,
                            tableCreated := false, rows := [],
                            nextId := 1 }).db).response.body = Body.jsonResults r2 →
        r2.length = r1.length + 1) :=
  db_test_inserts_one_row
    { connectFault := none, opFault := none, tableCreated := false,
      rows := [], nextId := 1 } rfl rfl

/-- C8: On a successful `db_test` invocation the connection opened by the
request is closed before the response is returned; if an exception occurs
between opening the connection and closing it, the handler returns 500 and
the connection is left open (no cleanup on the error path). -/
theorem db_test_connection_cleanup (db : Database) :
    (db.connectFault = none → db.opFault = none →
        (db_test db).conn = ConnOutcome.closed) ∧
      (∀ e, db.connectFault = none → db.opFault = some e →
        (db_test db).response = { status := 500, body := Body.jsonError e } ∧
          (db_test db).conn = ConnOutcome.openLeaked) := by
  constructor
  · intro hc ho
    simp [db_test, hc, ho]
  · intro e hc ho
    simp [db_test, hc, ho]

/-- Witness for C8 at a concrete input: a statement failure after a
successful connect returns 500 and leaks the connection. -/
theorem db_test_connection_cleanup_witness :
    (db_test { connectFault := none, opFault := some "relation is locked",
               tableCreated := true, rows := [(1, "GeoIQ")], nextId := 2 }).response =
        { status := 500, body := Body.jsonError "relation is locked" } ∧
      (db_test { connectFault := none, opFault := some "relation is locked",
                 tableCreated := true, rows := [(1, "GeoIQ")], nextId := 2 }).conn =
        ConnOutcome.openLeaked :=
  (db_test_connection_cleanup
      { connectFault := none, opFault := some "relation is locked",
        tableCreated := true, rows := [(1, "GeoIQ")], nextId := 2 }).2
    "relation is locked" rfl rfl

/-- C9: On a successful upload the storage key is the submitted filename
verbatim — the stored object is found under exactly `fp.filename`, with no
sanitization — and a second upload under the same filename succeeds with
status 200 and silently overwrites the stored object with the new bytes. -/
theorem upload_key_verbatim_overwrite
    (cfg : Config) (c : S3Client) (req : UploadRequest) (fp : FilePart) (b : String)
    (hfp : filesLookup req.files "file" = some fp)
    (hname : fp.filename ≠ "")
    (hfault : c.fault = none)
    (hb : cfg.bucket = some b) :
    storeLookup (upload_file cfg c req).2.store (b, fp.filename) = some fp.content ∧
      (upload_file cfg c req).1.status = 200 ∧
      ∀ (req2 : UploadRequest) (fp2 : FilePart),
        filesLookup req2.files "file" = some fp2 → fp2.filename = fp.filename →
        (upload_file cfg (upload_file cfg c req).2 req2).1.status = 200 ∧
          storeLookup (upload_file cfg (upload_file cfg c req).2 req2).2.store
            (b, fp.filename) = some fp2.content := by
  refine ⟨?_, ?_, ?_⟩
  · simp [upload_file, hfp, if_neg hname, s3_upload_fileobj, hfault, hb, storeLookup]
  · simp [upload_file, hfp, if_neg hname, s3_upload_fileobj, hfault, hb]
  · intro req2 fp2 hfp2 hname2
    have hname2' : fp2.filename ≠ "" := by rw [hname2]; exact hname
    constructor
    · simp [upload_file, hfp, if_neg hname, s3_upload_fileobj, hfault, hb,
        hfp2, if_neg hname2']
    · simp [upload_file, hfp, if_neg hname, s3_upload_fileobj, hfault, hb,
        hfp2, if_neg hname2', hname2, storeLookup]

/-- Witness for C9 at a concrete input: uploading `a.txt` with bytes `[1]`
and then `a.txt` with bytes `[9, 9]` succeeds and leaves `[9, 9]` stored
under the key `a.txt`. -/
theorem upload_key_verbatim_overwrite_witness :
    (upload_file { bucket := some "mybucket", region := "us-east-1" }
          (upload_file { bucket := some "mybucket", region := "us-east-1" }
            { store := [], fault := none }
            { files := [("file", { filename := "a.txt", content := [1] })] }).2
          { files := [("file", { filename := "a.txt", content := [9, 9] })] }).1.status =
        200 ∧
      storeLookup
        (upload_file { bucket := some "mybucket", region := "us-east-1" }
            (upload_file { bucket := some "mybucket", region := "us-east-1" }
              { store := [], fault := none }
              { files := [("file", { filename := "a.txt", content := [1] })] }).2
            { files := [("file", { filename := "a.txt", content := [9, 9] })] }).2.store
        ("mybucket", (FilePart.mk "a.txt" [1]).filename) = some [9, 9] :=
  (upload_key_verbatim_overwrite { bucket := some "mybucket", region := "us-east-1" }
      { store := [], fault := none }
      { files := [("file", { filename := "a.txt", content := [1] })] }
      { filename := "a.txt", content := [1] } "mybucket"
      (by simp [filesLookup]) (by simp) rfl rfl).2.2
    { files := [("file", { filename := "a.txt", content := [9, 9] })] }
    { filename := "a.txt", content := [9, 9] }
    (by simp [filesLookup]) rfl

/-- C10: Validation order and atomicity — when the `file` field is missing,
the response is the missing-part 400 error (the missing-field check fires
before the empty-filename check can be consulted), and every 400 response
from the upload handler leaves the S3 client state unchanged, so no put call
is issued on any validation failure. -/
theorem upload_validation_order
    (cfg : Config) (c : S3Client) (req : UploadRequest) :
    (filesLookup req.files "file" = none →
        upload_file cfg c req =
          ({ status := 400, body := Body.jsonError "No file part in the request" }, c)) ∧
      ((upload_file cfg c req).1.status = 400 → (upload_file cfg c req).2 = c) := by
  constructor
  · intro h
    simp [upload_file, h]
  · intro h400
    cases hfp : filesLookup req.files "file" with
    | none => simp [upload_file, hfp]
    | some fp =>
        by_cases hname : fp.filename = ""
        · simp [upload_file, hfp, hname]
        · simp only [upload_file, hfp, if_neg hname] at h400 ⊢
          cases hres : s3_upload_fileobj c cfg.bucket fp.filename fp.content with
          | error e => simp [hres]
          | ok c' => simp [hres] at h400

/-- Witness for C10 at a concrete input: a request with no `file` field gets
the missing-part 400 response and leaves the client state unchanged. -/
theorem upload_validation_order_witness :
    upload_file { bucket := some "mybucket", region := "us-east-1" }
        { store := [(("mybucket", "a.txt"), [1])], fault := none } { files := [] } =
      ({ status := 400, body := Body.jsonError "No file part in the request" },
        { store := [(("mybucket", "a.txt"), [1])], fault := none }) :=
  (upload_validation_order { bucket := some "mybucket", region := "us-east-1" }
      { store := [(("mybucket", "a.txt"), [1])], fault := none } { files := [] }).1
    rfl

end GeoIQ
